import Mathlib

/-!
Shallow embedding of the Facebook Messenger automation scripts
(`src/Messenger/src/messenger.js`, `src/Messenger/src/messengerrrr.js`,
and the Apify entry point `main.js`).

Browser interactions are modelled by oracle environments: every DOM
observation the scripts make (selector hits, navigation results, frame
presence, poll results) is a field of an environment structure, and each
script function becomes a pure Lean function of that environment.
Randomness (`Math.random`) is modelled by natural-number draws reduced
modulo the sampled range, which yields exactly the value range of the
source's `rand(min, max)`.  Wall-clock durations and log output are not
modelled.  Definitions carrying an `M` suffix are translated from
`messenger.js`; an `R` suffix marks `messengerrrr.js`.
-/

namespace FB

/-- Messaging target: `{ id: string, url: string }`. -/
structure Profile where
  id : String
  url : String
  deriving DecidableEq, Repr

/-- `rand(min, max) = Math.floor(Math.random() * (max - min + 1)) + min`.
The `Math.random()` draw is modelled as an arbitrary natural reduced into
the sampled range `[lo, hi]`. -/
def rand (draw lo hi : Nat) : Nat :=
  draw % (hi - lo + 1) + lo

/-- Integer variant of `rand` for calls with negative bounds such as
`rand(-5, 5)` in `humanClick`. -/
def randIntIn (draw : Nat) (lo hi : Int) : Int :=
  lo + Int.ofNat (draw % (hi - lo + 1).toNat)

/-- JavaScript `!x` on an optionally-supplied boolean argument: `!undefined`
is `true`, `!false` is `true`, `!true` is `false`. -/
def jsNot : Option Bool → Bool
  | none => true
  | some b => !b

/-- JavaScript truthiness of an optionally-present string value: absent and
empty strings are falsy. -/
def truthyS : Option String → Bool
  | none => false
  | some s => s ≠ ""

/-- Success-record message preview:
`message.substring(0, 50) + (message.length > 50 ? "..." : "")`
(modelled over Lean characters instead of UTF-16 code units). -/
def previewOf (message : String) : String :=
  (message.take 50).append (if message.length > 50 then "..." else "")

/-! ### Behavior simulator (`humanMove`, `humanClick`, `humanType`) -/

/-- On-screen bounding box of an element, as returned by
`element.boundingBox()`.  Pixel arithmetic is modelled over `Int`. -/
structure BoundingBox where
  x : Int
  y : Int
  width : Int
  height : Int
  deriving DecidableEq, Repr

/-- Input events issued by the behavior simulator. -/
inductive ClickAction where
  | move (x y : Int)
  | press
  deriving DecidableEq, Repr

/-- `humanMove(page, from, to, steps)`: interpolated cursor path with a
per-step jitter of `Math.random() * 4 - 2` pixels on each coordinate. -/
def humanMoveActions (fx fy tx ty : Int) (steps : Nat) (draws : Nat → Nat) :
    List ClickAction :=
  let dx : Int := (tx - fx) / (steps : Int)
  let dy : Int := (ty - fy) / (steps : Int)
  (List.range (steps + 1)).map fun i =>
    ClickAction.move (fx + dx * i + randIntIn (draws (2 * i)) (-2) 2)
                     (fy + dy * i + randIntIn (draws (2 * i + 1)) (-2) 2)

/-- `humanClick(page, element)`: resolves `element.boundingBox()`; when a box
exists it moves from `(100, 100)` to a jittered point inside the box over 15
steps and clicks.  When the element exposes no bounding box the `if (box)`
body is skipped — there is no `else` branch, so the call performs no input
action and resolves normally. -/
def humanClick (box : Option BoundingBox) (draws : Nat → Nat) :
    List ClickAction × Except String Unit :=
  match box with
  | none => ([], Except.ok ())
  | some b =>
    let x := b.x + b.width / 2 + randIntIn (draws 0) (-5) 5
    let y := b.y + b.height / 2 + randIntIn (draws 1) (-5) 5
    (humanMoveActions 100 100 x y 15 (fun i => draws (i + 2)) ++ [ClickAction.press],
      Except.ok ())

/-- First argument of `humanType`: either an element handle or — as happens
at the password call site of `messenger.js` — a raw CSS selector string. -/
inductive TypeTarget where
  | handle
  | selector (s : String)
  deriving DecidableEq, Repr

/-- `humanType(elementHandle, text, opts)`: the first operation executed is
`elementHandle.click({ clickCount: 3 })`.  A string has no `click` method,
so invoking `humanType` with a selector string raises a `TypeError` before
any character is typed; with a genuine handle the triple-click and the
per-character typing loop complete. -/
def humanTypeRun : TypeTarget → String → Except String Unit
  | TypeTarget.selector _, _ => Except.error "elementHandle.click is not a function"
  | TypeTarget.handle, _ => Except.ok ()

/-- Selector string passed to `humanType` at `messenger.js` line 262. -/
def passwordSelectorM : String := "input[name=\"pass\"], input[type=\"password\"]"

/-! ### Navigation controller (retry loop inside `sendMessageToProfile`) -/

/-- Oracle for the navigation-retry loop: the result of `page.goto` and of
the subsequent `document.readyState` liveness check, per attempt number
(1-based), plus the random draw used for the backoff pause after a failed
attempt. -/
structure NavEnv where
  gotoOk : Nat → Except String Unit
  pageLoaded : Nat → Bool
  pauseDraw : Nat → Nat

/-- Observable behaviour of one `navigate` call: number of `page.goto`
attempts performed, backoff pauses (in ms) performed between attempts, and
the final result. -/
structure NavResult where
  attempts : Nat
  pauses : List Nat
  outcome : Except String Unit
  deriving Repr

/-- Body of one navigation attempt: `page.goto` (which may reject), then the
liveness check `document.readyState === "complete" || body !== null`; a
failed check throws `"Page did not load properly"`. -/
def navigateAttempt (env : NavEnv) (attempt : Nat) : Except String Unit :=
  match env.gotoOk attempt with
  | Except.error e => Except.error e
  | Except.ok _ =>
    if env.pageLoaded attempt then Except.ok ()
    else Except.error "Page did not load properly"

/-- The `while (!navigationSuccess && attempt < maxAttempts)` loop: on a
failed attempt, either rethrow
`"Failed to load profile after ${maxAttempts} attempts: ${navError.message}"`
when the attempt counter has reached `maxAttempts`, or pause
`rand(2000, 4000)` ms and retry.  `fuel` bounds the recursion; the loop
always exits via success or the final throw, so the fuel-0 case is dead
when `fuel` starts at `maxAttempts`. -/
def navRetryAux (env : NavEnv) (maxAttempts : Nat) : Nat → Nat → NavResult
  | attempt, 0 => ⟨attempt, [], Except.error "unreachable"⟩
  | attempt, fuel + 1 =>
    match navigateAttempt env (attempt + 1) with
    | Except.ok _ => ⟨attempt + 1, [], Except.ok ()⟩
    | Except.error e =>
      if attempt + 1 = maxAttempts then
        ⟨attempt + 1, [],
          Except.error ("Failed to load profile after " ++ toString maxAttempts
            ++ " attempts: " ++ e)⟩
      else
        let pause := rand (env.pauseDraw (attempt + 1)) 2000 4000
        let rest := navRetryAux env maxAttempts (attempt + 1) fuel
        ⟨rest.attempts, pause :: rest.pauses, rest.outcome⟩

/-- The navigation block of `sendMessageToProfile`:
`maxAttempts = 3`, starting from `attempt = 0`. -/
def navigate (env : NavEnv) : NavResult :=
  navRetryAux env 3 0 3

/-! ### reCAPTCHA solving -/

/-- Oracle for `solveRecaptchaAudio` in `messenger.js`: whether the
reCAPTCHA iframe selector resolves within its timeout, whether the anchor
frame and its checkbox are found, and whether a challenge (`bframe`) frame
is present after the checkbox phase. -/
structure AudioEnvM where
  iframeAppears : Bool
  anchorFrameFound : Bool
  checkboxFound : Bool
  challengeFrameAfter : Bool

/-- `solveRecaptchaAudio` of `messenger.js`: a missing iframe rejects the
`waitForSelector` and the catch returns `false`; if no challenge frame
appears after the checkbox click the function returns `true`; otherwise it
logs that manual intervention is required and returns `false` (this variant
has no audio-processing code). -/
def solveRecaptchaAudioM (env : AudioEnvM) : Bool :=
  if !env.iframeAppears then false
  else if !env.challengeFrameAfter then true
  else false

/-- Oracle for `solveRecaptchaAudio` in `messengerrrr.js`.  The extra fields
cover the audio-channel path: audio button presence, appearance of the
download link, success of the audio download, the `Math.random()` draw of
the mock transcription, and presence of the response input and verify
button. -/
structure AudioEnvR where
  iframeAppears : Bool
  anchorFrameFound : Bool
  checkboxFound : Bool
  challengeFrameAfter : Bool
  audioButtonFound : Bool
  downloadLinkAppears : Bool
  downloadOk : Bool
  mockDraw : Nat
  audioInputFound : Bool
  verifyButtonFound : Bool

/-- The digit words the mock transcription samples from. -/
def audioNumbers : List String :=
  ["zero", "one", "two", "three", "four", "five", "six", "seven", "eight", "nine"]

/-- `processAudioChallenge(audioUrl)`: downloads the audio, then — as the
source comments state, a mock in place of a real speech-to-text backend —
returns a uniformly random digit word; a download error is caught and
yields `null`. -/
def processAudioChallenge (env : AudioEnvR) : Option String :=
  if env.downloadOk then some (audioNumbers.getD (env.mockDraw % 10) "zero")
  else none

/-- Observable behaviour of `solveRecaptchaAudio` (`messengerrrr.js`):
the boolean result, whether the audio-channel/transcription path was
entered, and the text typed into `#audio-response` (if any). -/
structure AudioResult where
  solved : Bool
  audioAttempted : Bool
  injected : Option String
  deriving DecidableEq, Repr

/-- `solveRecaptchaAudio` of `messengerrrr.js`: checkbox phase first; when no
challenge frame appears the function returns `true` without touching the
audio path.  Otherwise it clicks the audio button, waits for the download
link (a timeout rejects into the catch, returning `false`), runs the mock
transcription, and on a transcription result types it into
`#audio-response` and clicks the verify button, returning `true`; every
other fall-through returns `false`. -/
def solveRecaptchaAudioR (env : AudioEnvR) : AudioResult :=
  if !env.iframeAppears then ⟨false, false, none⟩
  else if !env.challengeFrameAfter then ⟨true, false, none⟩
  else if !env.downloadLinkAppears then ⟨false, true, none⟩
  else
    match processAudioChallenge env with
    | none => ⟨false, true, none⟩
    | some text =>
      if env.audioInputFound then
        if env.verifyButtonFound then ⟨true, true, some text⟩
        else ⟨false, true, some text⟩
      else ⟨false, true, none⟩

/-- Oracle for `solveCaptcha` in `messenger.js`: initial detection result,
the audio-strategy oracle, and the per-poll "is the reCAPTCHA iframe still
present" observations of the manual-solve window. -/
structure CaptchaEnvM where
  present : Bool
  audio : AudioEnvM
  stillPresent : Nat → Bool

/-- Oracle for `solveCaptcha` in `messengerrrr.js`. -/
structure CaptchaEnvR where
  present : Bool
  audio : AudioEnvR
  stillPresent : Nat → Bool

/-- Observable behaviour of one `solveCaptcha` call: the boolean result and
the number of manual-solve polls performed. -/
structure CaptchaResult where
  solved : Bool
  manualPolls : Nat
  deriving DecidableEq, Repr

/-- The manual-solve window: poll whether the challenge marker disappeared,
sleeping 2000 ms per iteration, for up to `maxWait = 180000` ms.  Each
iteration consumes at least its 2000 ms delay, so at most
`180000 / 2000 = 90` polls fit in the window (the fuel below). -/
def manualSolvePolls (stillPresent : Nat → Bool) : Nat → Nat → CaptchaResult
  | i, 0 => ⟨false, i⟩
  | i, fuel + 1 =>
    if !stillPresent i then ⟨true, i + 1⟩
    else manualSolvePolls stillPresent (i + 1) fuel

/-- `solveCaptcha(page, headless)` of `messenger.js`: returns `true` when no
CAPTCHA is detected or the audio strategy succeeds; otherwise, when
`!headless` (true for `headless = false` and for an omitted argument), it
enters the bounded manual-solve window; otherwise it returns `false`
immediately. -/
def solveCaptchaM (headless : Option Bool) (env : CaptchaEnvM) : CaptchaResult :=
  if !env.present then ⟨true, 0⟩
  else if solveRecaptchaAudioM env.audio then ⟨true, 0⟩
  else if jsNot headless then manualSolvePolls env.stillPresent 0 90
  else ⟨false, 0⟩

/-- Argument list of the `solveCaptcha` call inside `performFacebookLogin`
(`messenger.js` line 304): the call is `solveCaptcha(page)`, so the
`headless` parameter receives `undefined`. -/
def loginCaptchaHeadlessArg : Option Bool := none

/-- `solveCaptcha(page)` of `messengerrrr.js`: identical structure, but the
interactive-mode test reads the ambient configuration directly:
`process.env.HEADLESS !== "true"`. -/
def solveCaptchaR (headlessEnvIsTrue : Bool) (env : CaptchaEnvR) : CaptchaResult :=
  if !env.present then ⟨true, 0⟩
  else if (solveRecaptchaAudioR env.audio).solved then ⟨true, 0⟩
  else if !headlessEnvIsTrue then manualSolvePolls env.stillPresent 0 90
  else ⟨false, 0⟩

/-! ### Login state machine -/

/-- Humanized input steps performed by `performFacebookLogin`. -/
inductive LoginAction where
  | clickEmail
  | typeEmail (s : String)
  | clickPassword
  | typePassword (s : String)
  | clickLoginButton
  | pressEnter
  deriving DecidableEq, Repr

/-- Oracle for `performFacebookLogin` in `messenger.js`: whether the
email-field `waitForSelector` resolves, which form fields and buttons the
page exposes, the post-submit CAPTCHA observation, and the final
`isLoginRequired` re-check together with the text of the first non-empty
alert/error element (if any). -/
structure LoginEnvM where
  emailWaitOk : Bool
  emailFieldFound : Bool
  passwordFieldFound : Bool
  loginButtonFound : Bool
  captchaPresent : Bool
  captcha : CaptchaEnvM
  stillOnLoginPage : Bool
  loginErrorMessage : Option String

/-- Oracle for `performFacebookLogin` in `messengerrrr.js`.
`headlessEnvIsTrue` is the ambient `process.env.HEADLESS === "true"` read
inside `solveCaptcha`. -/
structure LoginEnvR where
  emailWaitOk : Bool
  emailFieldFound : Bool
  passwordFieldFound : Bool
  loginButtonFound : Bool
  captchaPresent : Bool
  captcha : CaptchaEnvR
  headlessEnvIsTrue : Bool
  stillOnLoginPage : Bool
  loginErrorMessage : Option String

/-- Outcome verification shared by both login variants: if `isLoginRequired`
still holds, raise `Login failed: <first visible error text>` or the
generic `"Login failed: Still on login page"`; otherwise return `true`. -/
def loginOutcomeCheck (stillOnLoginPage : Bool) (errMsg : Option String) :
    Except String Bool :=
  if stillOnLoginPage then
    match errMsg with
    | some m => Except.error ("Login failed: " ++ m)
    | none => Except.error "Login failed: Still on login page"
  else Except.ok true

/-- Submit phase of `performFacebookLogin` in `messenger.js`: click the
login button (or press Enter as fallback), race navigation against the
grace delay, then run the CAPTCHA check — note the `solveCaptcha(page)`
call omits the `headless` argument — and finally verify the outcome. -/
def loginSubmitM (env : LoginEnvM) (acts : List LoginAction) :
    List LoginAction × Except String Bool :=
  let acts := acts ++
    [if env.loginButtonFound then LoginAction.clickLoginButton else LoginAction.pressEnter]
  if env.captchaPresent then
    if (solveCaptchaM loginCaptchaHeadlessArg env.captcha).solved then
      (acts, loginOutcomeCheck env.stillOnLoginPage env.loginErrorMessage)
    else (acts, Except.error "CAPTCHA could not be solved during login")
  else (acts, loginOutcomeCheck env.stillOnLoginPage env.loginErrorMessage)

/-- `performFacebookLogin(page, email, password)` of `messenger.js`:
humanized click + type on the email field, humanized click on the password
field, then `humanType(passwordSelector, password, ...)` — the raw selector
string rather than the element handle, so the call raises a `TypeError`
and the submit phase below is never reached.  Thrown errors are logged and
rethrown by the surrounding catch. -/
def performFacebookLoginM (env : LoginEnvM) (email password : String) :
    List LoginAction × Except String Bool :=
  if !env.emailWaitOk then
    ([], Except.error "waiting for selector `input[name=\"email\"], input[type=\"email\"]` failed: timeout 10000ms exceeded")
  else if !env.emailFieldFound then ([], Except.error "Email field not found")
  else if !env.passwordFieldFound then
    ([LoginAction.clickEmail, LoginAction.typeEmail email],
      Except.error "Password field not found")
  else
    match humanTypeRun (TypeTarget.selector passwordSelectorM) password with
    | Except.error e =>
      ([LoginAction.clickEmail, LoginAction.typeEmail email, LoginAction.clickPassword],
        Except.error e)
    | Except.ok _ =>
      loginSubmitM env
        [LoginAction.clickEmail, LoginAction.typeEmail email,
          LoginAction.clickPassword, LoginAction.typePassword password]

/-- `performFacebookLogin(page, email, password)` of `messengerrrr.js`:
the password field receives the same humanized click + type treatment as
the email field (the element handle is passed to `humanType`), then the
submit phase runs: login button or Enter fallback, CAPTCHA check via
`solveCaptcha(page)` reading `process.env.HEADLESS`, outcome
verification. -/
def performFacebookLoginR (env : LoginEnvR) (email password : String) :
    List LoginAction × Except String Bool :=
  if !env.emailWaitOk then
    ([], Except.error "waiting for selector `input[name=\"email\"], input[type=\"email\"]` failed: timeout 10000ms exceeded")
  else if !env.emailFieldFound then ([], Except.error "Email field not found")
  else if !env.passwordFieldFound then
    ([LoginAction.clickEmail, LoginAction.typeEmail email],
      Except.error "Password field not found")
  else
    match humanTypeRun TypeTarget.handle password with
    | Except.error e =>
      ([LoginAction.clickEmail, LoginAction.typeEmail email, LoginAction.clickPassword],
        Except.error e)
    | Except.ok _ =>
      let acts := [LoginAction.clickEmail, LoginAction.typeEmail email,
        LoginAction.clickPassword, LoginAction.typePassword password] ++
        [if env.loginButtonFound then LoginAction.clickLoginButton else LoginAction.pressEnter]
      if env.captchaPresent then
        if (solveCaptchaR env.headlessEnvIsTrue env.captcha).solved then
          (acts, loginOutcomeCheck env.stillOnLoginPage env.loginErrorMessage)
        else (acts, Except.error "CAPTCHA could not be solved during login")
      else (acts, loginOutcomeCheck env.stillOnLoginPage env.loginErrorMessage)

/-! ### Message delivery pipeline (`sendMessageToProfile`) -/

/-- AttemptOutcome record returned by `sendMessageToProfile` and pushed to
the result sink.  `durationMs` and `timestamp` (wall-clock data) are not
modelled; `messagePreview` is the truncated `message` field of success
records. -/
structure Outcome where
  success : Bool
  profileId : String
  url : String
  error : Option String
  messageButtonPresent : String
  messageSent : String
  messagePreview : Option String
  deriving DecidableEq, Repr

/-- Instrumentation of one `sendMessageToProfile` run: how many `page.goto`
attempts the navigation loop performed, and how many times the primary
message-button selector was queried. -/
structure RunTrace where
  navAttempts : Nat
  buttonQueries : Nat
  deriving DecidableEq, Repr

/-- Failure record built by the outer catch of `sendMessageToProfile`:
`{ success: false, profileId, url, error: err.message, durationMs,
messageButtonPresent, messageSent }`. -/
def failOutcome (p : Profile) (e : String) (btn sent : String) : Outcome :=
  { success := false, profileId := p.id, url := p.url, error := some e,
    messageButtonPresent := btn, messageSent := sent, messagePreview := none }

/-- Oracle for one profile's processing in `messenger.js`: navigation
oracle, the `isLoginRequired` observation, the login oracle, the result of
the `page.goto` back to the profile after a login, and the selector hits of
the messaging block. -/
structure ProfileEnvM where
  nav : NavEnv
  needsLogin : Bool
  login : LoginEnvM
  postLoginGoto : Except String Unit
  messageButtonFound : Bool
  messageInputFound : Bool
  contentEditable : Bool
  sendButtonFound : Bool

/-- Login phase of `sendMessageToProfile` (`messenger.js`): when
`isLoginRequired` holds, run `performFacebookLogin`, save cookies and
navigate back to the profile; any thrown error propagates to the outer
catch. -/
def loginPhaseM (env : ProfileEnvM) (email password : String) : Except String Unit :=
  if env.needsLogin then
    match (performFacebookLoginM env.login email password).2 with
    | Except.error e => Except.error e
    | Except.ok _ => env.postLoginGoto
  else Except.ok ()

/-- Messaging block of `sendMessageToProfile` (`messenger.js`).  The whole
block sits in a `try` whose catch rethrows
`"Profile unavailable or no messaging option found"`, so both a missing
message button and a missing composer surface as that error.  After the
button click `messageButtonPresent` becomes `"Yes"`; on the composer path
the text is injected (native assignment for a rich-text region, humanized
typing otherwise) and `messageSent` becomes `"Yes"` both when a send button
is clicked and on the Enter-key fallback. -/
def messagingPhaseM (env : ProfileEnvM) (p : Profile) (message : String)
    (navAttempts : Nat) : Outcome × RunTrace :=
  if !env.messageButtonFound then
    (failOutcome p "Profile unavailable or no messaging option found" "No" "No",
      ⟨navAttempts, 1⟩)
  else if !env.messageInputFound then
    (failOutcome p "Profile unavailable or no messaging option found" "Yes" "No",
      ⟨navAttempts, 1⟩)
  else
    ({ success := true, profileId := p.id, url := p.url, error := none,
       messageButtonPresent := "Yes",
       messageSent := if env.sendButtonFound then "Yes" else "Yes",
       messagePreview := some (previewOf message) },
      ⟨navAttempts, 1⟩)

/-- `sendMessageToProfile(page, profile, message, email, headless)` of
`messenger.js`: load cookies, navigate with retry, authenticate when
required, then run the messaging block; every thrown error is converted by
the outer catch into a failure record carrying the flag values reached so
far. -/
def sendMessageToProfileM (env : ProfileEnvM) (p : Profile)
    (message email password : String) : Outcome × RunTrace :=
  let navRes := navigate env.nav
  match navRes.outcome with
  | Except.error e => (failOutcome p e "No" "No", ⟨navRes.attempts, 0⟩)
  | Except.ok _ =>
    match loginPhaseM env email password with
    | Except.error e => (failOutcome p e "No" "No", ⟨navRes.attempts, 0⟩)
    | Except.ok _ => messagingPhaseM env p message navRes.attempts

/-- Oracle for one profile's processing in `messengerrrr.js`.
`blockedTextPresent` is the page-unavailable text observation whose abort
is commented out in the source. -/
structure ProfileEnvR where
  nav : NavEnv
  blockedTextPresent : Bool
  needsLogin : Bool
  login : LoginEnvR
  postLoginGoto : Except String Unit
  messageButtonFound : Bool
  messageInputFound : Bool
  contentEditable : Bool
  sendButtonFound : Bool

/-- Login phase of `sendMessageToProfile` (`messengerrrr.js`). -/
def loginPhaseR (env : ProfileEnvR) (email password : String) : Except String Unit :=
  if env.needsLogin then
    match (performFacebookLoginR env.login email password).2 with
    | Except.error e => Except.error e
    | Except.ok _ => env.postLoginGoto
  else Except.ok ()

/-- Messaging block of `sendMessageToProfile` (`messengerrrr.js`): the
button query and first click sit in their own try/catch (a `null` button
makes `humanClick` raise a `TypeError` that is caught and logged), then a
missing button throws `"Profile unavailable or no messaging option found"`
while a missing composer throws `"Message input field not found"`; the
send phase is identical to the `messenger.js` variant. -/
def messagingPhaseR (env : ProfileEnvR) (p : Profile) (message : String)
    (navAttempts : Nat) : Outcome × RunTrace :=
  if !env.messageButtonFound then
    (failOutcome p "Profile unavailable or no messaging option found" "No" "No",
      ⟨navAttempts, 1⟩)
  else if !env.messageInputFound then
    (failOutcome p "Message input field not found" "Yes" "No", ⟨navAttempts, 1⟩)
  else
    ({ success := true, profileId := p.id, url := p.url, error := none,
       messageButtonPresent := "Yes",
       messageSent := if env.sendButtonFound then "Yes" else "Yes",
       messagePreview := some (previewOf message) },
      ⟨navAttempts, 1⟩)

/-- `sendMessageToProfile(page, profile, message)` of `messengerrrr.js`.
The blocked-page text is observed but — the abort being commented out in
the source — never acted upon. -/
def sendMessageToProfileR (env : ProfileEnvR) (p : Profile)
    (message email password : String) : Outcome × RunTrace :=
  let navRes := navigate env.nav
  match navRes.outcome with
  | Except.error e => (failOutcome p e "No" "No", ⟨navRes.attempts, 0⟩)
  | Except.ok _ =>
    let _isBlocked := env.blockedTextPresent
    match loginPhaseR env email password with
    | Except.error e => (failOutcome p e "No" "No", ⟨navRes.attempts, 0⟩)
    | Except.ok _ => messagingPhaseR env p message navRes.attempts

/-! ### Batch orchestrator -/

/-- Per-profile loop of `Actor.main` in `messenger.js`: for each profile
(after an inter-profile pacing delay, skipped before the first), run
`sendMessageToProfile`, push the outcome to the dataset and collect it.
`sendMessageToProfile` catches its own errors and always returns a record,
so the surrounding per-profile catch never fires. -/
def processProfilesM (envs : Nat → ProfileEnvM) (message email password : String) :
    Nat → List Profile → List Outcome
  | _, [] => []
  | i, p :: rest =>
    (sendMessageToProfileM (envs i) p message email password).1 ::
      processProfilesM envs message email password (i + 1) rest

/-- Per-profile loop of `processAll` in `messengerrrr.js`: identical
structure, appending each outcome to the results log. -/
def processAllR (envs : Nat → ProfileEnvR) (message email password : String) :
    Nat → List Profile → List Outcome
  | _, [] => []
  | i, p :: rest =>
    (sendMessageToProfileR (envs i) p message email password).1 ::
      processAllR envs message email password (i + 1) rest

/-! ### Input configuration -/

/-- Run input as read from Apify / INPUT.json.  Fields are `Option` to model
absence; the shapes themselves are the well-typed ones the scripts expect. -/
structure ActorInput where
  loginEmail : Option String
  loginPassword : Option String
  profiles : Option (List Profile)
  message : Option String
  headless : Option Bool

/-- Configuration values the `messenger.js` run proceeds with. -/
structure ResolvedConfig where
  loginEmail : String
  loginPassword : String
  profiles : List Profile
  message : String
  headless : Bool
  deriving DecidableEq, Repr

/-- Fallback profile list hard-coded in `Actor.main` of `messenger.js`. -/
def defaultProfiles : List Profile :=
  [⟨"profile-001", "https://www.facebook.com/terri.lopez.9659283"⟩,
   ⟨"profile-002", "https://www.facebook.com/profile.php?id=61559986547821"⟩]

/-- Input resolution and validation of `Actor.main` in `messenger.js`.
The credential resolution is
`"adedokunfemi14@gmail.com" || process.env.LOGIN_EMAIL || input.loginEmail`
(and likewise for the password): the non-empty string literal is truthy, so
the environment and input values are never consulted.  `profiles` and
`message` fall back to hard-coded defaults when absent (an empty string
message is falsy and also replaced; an empty profiles array is truthy and
kept, so it alone reaches the length check).  The validations then run on
these resolved values, before the browser is launched. -/
def resolveConfigM (input : ActorInput) : Except String ResolvedConfig :=
  let loginEmail := "adedokunfemi14@gmail.com"
  let loginPassword := "Adedokun@1900"
  let profiles := match input.profiles with
    | some ps => ps
    | none => defaultProfiles
  let message := match input.message with
    | some m => if m = "" then "Hello World" else m
    | none => "Hello World"
  let headless := match input.headless with
    | some b => b
    | none => false
  if loginEmail = "" ∨ loginPassword = "" then
    Except.error "❌ loginEmail and loginPassword are required inputs (via .env or INPUT.json)"
  else if profiles.isEmpty then
    Except.error "❌ profiles array is required and must contain at least one profile"
  else if message = "" then
    Except.error "❌ message is required and must be a string"
  else Except.ok ⟨loginEmail, loginPassword, profiles, message, headless⟩

/-- Input validation of `runMessenger` in `messengerrrr.js`: performed on
the raw input, before `processAll` (and hence before any browser launch). -/
def runMessengerCheck (input : ActorInput) : Except String Unit :=
  if !truthyS input.loginEmail || !truthyS input.loginPassword then
    Except.error "loginEmail and loginPassword are required in input"
  else if (match input.profiles with | none => true | some ps => ps.isEmpty) then
    Except.error "profiles (array) required in input"
  else if !truthyS input.message then
    Except.error "message required in input"
  else Except.ok ()

/-- Input validation of the Apify entry point `main.js`: same conditions as
`runMessenger`, checked before it is invoked. -/
def mainChecks (input : ActorInput) : Except String Unit :=
  if !truthyS input.loginEmail || !truthyS input.loginPassword then
    Except.error "❌ loginEmail and loginPassword are required in INPUT.json or Apify Console."
  else if (match input.profiles with | none => true | some ps => ps.isEmpty) then
    Except.error "profiles (array) required in INPUT.json or Apify Console."
  else if !truthyS input.message then
    Except.error "message required in INPUT.json or Apify Console."
  else Except.ok ()

/-! ### Concrete environments used by witnesses and counterexamples -/

/-- Navigation oracle on which every attempt fails with the same network
error and the backoff draws are zero. -/
def navEnvAllFail : NavEnv :=
  ⟨fun _ => Except.error "net::ERR_CONNECTION_RESET", fun _ => false, fun _ => 0⟩

/-- Navigation oracle on which the first attempt succeeds. -/
def navEnvOk : NavEnv :=
  ⟨fun _ => Except.ok (), fun _ => true, fun _ => 0⟩

/-- Audio oracle (`messenger.js`) on which the challenge frame persists
after the checkbox click, so strategy 1 fails. -/
def audioEnvStuckM : AudioEnvM := ⟨true, true, true, true⟩

/-- Audio oracle (`messengerrrr.js`) on which the challenge frame persists
and the audio download link never appears, so strategy 1 fails. -/
def audioEnvStuckR : AudioEnvR := ⟨true, true, true, true, true, false, false, 0, false, false⟩

/-- CAPTCHA oracle (`messenger.js`): challenge present, audio strategy
failing, challenge marker never disappearing. -/
def captchaEnvStuckM : CaptchaEnvM := ⟨true, audioEnvStuckM, fun _ => true⟩

/-- CAPTCHA oracle (`messengerrrr.js`): challenge present, audio strategy
failing, challenge marker never disappearing. -/
def captchaEnvStuckR : CaptchaEnvR := ⟨true, audioEnvStuckR, fun _ => true⟩

/-- CAPTCHA oracle with no challenge detected. -/
def captchaEnvAbsentM : CaptchaEnvM := ⟨false, ⟨false, false, false, false⟩, fun _ => true⟩

/-- CAPTCHA oracle (`messengerrrr.js`) with no challenge detected. -/
def captchaEnvAbsentR : CaptchaEnvR :=
  ⟨false, ⟨false, false, false, false, false, false, false, 0, false, false⟩, fun _ => true⟩

/-- Login-page oracle (`messenger.js`) exposing the full login form, with no
CAPTCHA and a successful outcome check. -/
def loginEnvHappyM : LoginEnvM :=
  ⟨true, true, true, true, false, captchaEnvAbsentM, false, none⟩

/-- Login-page oracle (`messengerrrr.js`) exposing the full login form, with
no CAPTCHA and a successful outcome check. -/
def loginEnvHappyR : LoginEnvR :=
  ⟨true, true, true, true, false, captchaEnvAbsentR, true, false, none⟩

/-- Profile oracle (`messenger.js`): navigation succeeds at once, no login
needed, message button, composer and send button all present. -/
def envHappyM : ProfileEnvM :=
  ⟨navEnvOk, false, loginEnvHappyM, Except.ok (), true, true, true, true⟩

/-- Profile oracle (`messengerrrr.js`): the same fully-working page. -/
def envHappyR : ProfileEnvR :=
  ⟨navEnvOk, false, false, loginEnvHappyR, Except.ok (), true, true, true, true⟩

/-- Profile oracle (`messenger.js`) whose page exposes no message button. -/
def envNoButtonM : ProfileEnvM :=
  ⟨navEnvOk, false, loginEnvHappyM, Except.ok (), false, false, false, false⟩

/-- Profile oracle (`messengerrrr.js`) whose page exposes no message button. -/
def envNoButtonR : ProfileEnvR :=
  ⟨navEnvOk, false, false, loginEnvHappyR, Except.ok (), false, false, false, false⟩

/-- Audio oracle (`messengerrrr.js`) on which the whole audio path is
available: challenge frame present, download link appears, download
succeeds with draw 0, response input and verify button present. -/
def audioEnvFabricate : AudioEnvR := ⟨true, true, true, true, true, true, true, 0, true, true⟩

/-- Concrete target profile used by witnesses. -/
def profileP1 : Profile := ⟨"p1", "https://www.facebook.com/someone"⟩

/-- Run input supplying only credentials: profiles and message are absent. -/
def inputOnlyCreds : ActorInput :=
  ⟨some "user@example.com", some "userpw", none, none, none⟩

/-- Audio oracle (`messenger.js`) on which the checkbox click resolves the
challenge: no challenge frame appears afterwards. -/
def audioEnvCheckboxM : AudioEnvM := ⟨true, true, true, false⟩

/-- Audio oracle (`messengerrrr.js`) on which the checkbox click resolves
the challenge. -/
def audioEnvCheckboxR : AudioEnvR := ⟨true, true, true, false, false, false, false, 0, false, false⟩

/-! ### Helper lemmas -/

/-- `rand(min, max)` always lands inside the requested range. -/
theorem rand_mem (draw lo hi : Nat) (h : lo ≤ hi) :
    lo ≤ rand draw lo hi ∧ rand draw lo hi ≤ hi := by
  unfold rand
  have hlt : draw % (hi - lo + 1) < hi - lo + 1 := Nat.mod_lt _ (by omega)
  omega

/-- Every record produced by `sendMessageToProfile` (`messenger.js`) carries
the source profile's id. -/
theorem sendM_profileId (env : ProfileEnvM) (p : Profile)
    (message email password : String) :
    (sendMessageToProfileM env p message email password).1.profileId = p.id := by
  simp only [sendMessageToProfileM, messagingPhaseM]
  repeat' split
  all_goals rfl

/-- Every record produced by `sendMessageToProfile` (`messengerrrr.js`)
carries the source profile's id. -/
theorem sendR_profileId (env : ProfileEnvR) (p : Profile)
    (message email password : String) :
    (sendMessageToProfileR env p message email password).1.profileId = p.id := by
  simp only [sendMessageToProfileR, messagingPhaseR]
  repeat' split
  all_goals rfl

/-- Every record produced by `sendMessageToProfile` (`messenger.js`) is
either a failure record or has `messageSent = "Yes"`. -/
theorem sendM_success_cases (env : ProfileEnvM) (p : Profile)
    (message email password : String) :
    (sendMessageToProfileM env p message email password).1.success = false
    ∨ (sendMessageToProfileM env p message email password).1.messageSent = "Yes" := by
  simp only [sendMessageToProfileM, messagingPhaseM]
  repeat' split
  all_goals first | exact Or.inl rfl | exact Or.inr rfl

/-- Every record produced by `sendMessageToProfile` (`messengerrrr.js`) is
either a failure record or has `messageSent = "Yes"`. -/
theorem sendR_success_cases (env : ProfileEnvR) (p : Profile)
    (message email password : String) :
    (sendMessageToProfileR env p message email password).1.success = false
    ∨ (sendMessageToProfileR env p message email password).1.messageSent = "Yes" := by
  simp only [sendMessageToProfileR, messagingPhaseR]
  repeat' split
  all_goals first | exact Or.inl rfl | exact Or.inr rfl

/-- The `messenger.js` batch loop maps each profile to a record with its id. -/
theorem processM_map (envs : Nat → ProfileEnvM) (message email password : String)
    (i : Nat) (profiles : List Profile) :
    (processProfilesM envs message email password i profiles).map Outcome.profileId
      = profiles.map Profile.id := by
  induction profiles generalizing i with
  | nil => rfl
  | cons p rest ih => simp [processProfilesM, sendM_profileId, ih]

/-- The `messengerrrr.js` batch loop maps each profile to a record with its
id. -/
theorem processR_map (envs : Nat → ProfileEnvR) (message email password : String)
    (i : Nat) (profiles : List Profile) :
    (processAllR envs message email password i profiles).map Outcome.profileId
      = profiles.map Profile.id := by
  induction profiles generalizing i with
  | nil => rfl
  | cons p rest ih => simp [processAllR, sendR_profileId, ih]

/-! ### Claims -/

/-- C1: for every configuration, the batch loops of `Actor.main`
(`messenger.js`) and `processAll` (`messengerrrr.js`) emit exactly one
outcome record per input profile, in input order.  The statement is
universally quantified over the per-profile page oracles — including ones
on which every browser interaction fails — so a failure while processing
any single profile never aborts the batch: the loop always advances and
still produces one record per profile. -/
theorem batch_one_outcome_per_profile (envsM : Nat → ProfileEnvM)
    (envsR : Nat → ProfileEnvR) (message email password : String)
    (i j : Nat) (profiles : List Profile) :
    ((processProfilesM envsM message email password i profiles).length = profiles.length
      ∧ (processProfilesM envsM message email password i profiles).map Outcome.profileId
          = profiles.map Profile.id)
    ∧ ((processAllR envsR message email password j profiles).length = profiles.length
      ∧ (processAllR envsR message email password j profiles).map Outcome.profileId
          = profiles.map Profile.id) := by
  refine ⟨⟨?_, processM_map envsM message email password i profiles⟩,
    ⟨?_, processR_map envsR message email password j profiles⟩⟩
  · have h := congrArg List.length (processM_map envsM message email password i profiles)
    simpa using h
  · have h := congrArg List.length (processR_map envsR message email password j profiles)
    simpa using h

/-- C2: in both scripts, every outcome with `success = true` has
`messageSent = "Yes"` (the success record is only built after the send
phase, whose two branches — send-button click and Enter-key fallback —
both set the flag). -/
theorem success_implies_messageSent (envM : ProfileEnvM) (envR : ProfileEnvR)
    (p q : Profile) (message email password : String) :
    ((sendMessageToProfileM envM p message email password).1.success = true →
      (sendMessageToProfileM envM p message email password).1.messageSent = "Yes")
    ∧ ((sendMessageToProfileR envR q message email password).1.success = true →
      (sendMessageToProfileR envR q message email password).1.messageSent = "Yes") := by
  constructor
  · intro h
    rcases sendM_success_cases envM p message email password with hf | hs
    · rw [h] at hf; exact absurd hf (by decide)
    · exact hs
  · intro h
    rcases sendR_success_cases envR q message email password with hf | hs
    · rw [h] at hf; exact absurd hf (by decide)
    · exact hs

/-- Witness for C2: on a fully-working page the produced record is a
success with `messageSent = "Yes"`. -/
theorem success_implies_messageSent_witness :
    (sendMessageToProfileM envHappyM profileP1 "hi" "user@example.com" "pw").1.messageSent
        = "Yes"
    ∧ (sendMessageToProfileR envHappyR profileP1 "hi" "user@example.com" "pw").1.messageSent
        = "Yes" := by
  have h := success_implies_messageSent envHappyM envHappyR profileP1 profileP1
    "hi" "user@example.com" "pw"
  exact ⟨h.1 rfl, h.2 rfl⟩

/-- C3: a single `navigate` call performs at most `maxAttempts = 3`
page-load attempts; every backoff pause it performs (one between any failed
attempt and the next) lies in the 2000–4000 ms range; and when all attempts
are exhausted the raised error carries the last failure's message. -/
theorem navigation_retry_policy (env : NavEnv) :
    (navigate env).attempts ≤ 3
    ∧ (navigate env).pauses.length + 1 = (navigate env).attempts
    ∧ (∀ pz ∈ (navigate env).pauses, 2000 ≤ pz ∧ pz ≤ 4000)
    ∧ (∀ e, (navigate env).outcome = Except.error e →
        ∃ m, navigateAttempt env 3 = Except.error m
          ∧ e = "Failed to load profile after 3 attempts: " ++ m) := by
  have hr1 := rand_mem (env.pauseDraw 1) 2000 4000 (by omega)
  have hr2 := rand_mem (env.pauseDraw 2) 2000 4000 (by omega)
  cases h1 : navigateAttempt env 1 with
  | ok u =>
    cases u
    have hnav : navigate env = ⟨1, [], Except.ok ()⟩ := by
      simp [navigate, navRetryAux, h1]
    rw [hnav]
    refine ⟨by simp, by simp, by simp, ?_⟩
    intro e he
    simp at he
  | error e1 =>
    cases h2 : navigateAttempt env 2 with
    | ok u =>
      cases u
      have hnav : navigate env
          = ⟨2, [rand (env.pauseDraw 1) 2000 4000], Except.ok ()⟩ := by
        simp [navigate, navRetryAux, h1, h2]
      rw [hnav]
      refine ⟨by simp, by simp, ?_, ?_⟩
      · intro pz hpz
        simp at hpz
        rw [hpz]
        exact hr1
      · intro e he
        simp at he
    | error e2 =>
      cases h3 : navigateAttempt env 3 with
      | ok u =>
        cases u
        have hnav : navigate env
            = ⟨3, [rand (env.pauseDraw 1) 2000 4000, rand (env.pauseDraw 2) 2000 4000],
                Except.ok ()⟩ := by
          simp [navigate, navRetryAux, h1, h2, h3]
        rw [hnav]
        refine ⟨by simp, by simp, ?_, ?_⟩
        · intro pz hpz
          simp at hpz
          rcases hpz with h | h <;> rw [h]
          · exact hr1
          · exact hr2
        · intro e he
          simp at he
      | error e3 =>
        have hnav : navigate env
            = ⟨3, [rand (env.pauseDraw 1) 2000 4000, rand (env.pauseDraw 2) 2000 4000],
                Except.error ("Failed to load profile after 3 attempts: " ++ e3)⟩ := by
          simp [navigate, navRetryAux, h1, h2, h3]
          rfl
        rw [hnav]
        refine ⟨by simp, by simp, ?_, ?_⟩
        · intro pz hpz
          simp at hpz
          rcases hpz with h | h <;> rw [h]
          · exact hr1
          · exact hr2
        · intro e he
          simp at he
          exact ⟨e3, rfl, he.symm⟩

/-- Witness for C3: with every attempt failing on a connection reset, a
pause of 2000 ms is performed and lies in range, and the final error embeds
the last failure's message. -/
theorem navigation_retry_policy_witness :
    (2000 ≤ 2000 ∧ 2000 ≤ 4000)
    ∧ ∃ m, navigateAttempt navEnvAllFail 3 = Except.error m
        ∧ "Failed to load profile after 3 attempts: net::ERR_CONNECTION_RESET"
            = "Failed to load profile after 3 attempts: " ++ m := by
  have h := navigation_retry_policy navEnvAllFail
  exact ⟨h.2.2.1 2000 (by decide), h.2.2.2 _ (by rfl)⟩

/-- C4: in both scripts, when the primary message-button selector matches
nothing (and the flow reaches the messaging block), the produced record is
`{success: false, error: "Profile unavailable or no messaging option
found", messageButtonPresent: "No", messageSent: "No"}`, and the button
selector is queried exactly once — the condition is not retried. -/
theorem missing_button_outcome (envM : ProfileEnvM) (envR : ProfileEnvR)
    (p q : Profile) (message email password : String)
    (hnavM : (navigate envM.nav).outcome = Except.ok ())
    (hnavR : (navigate envR.nav).outcome = Except.ok ())
    (hlM : envM.needsLogin = false) (hlR : envR.needsLogin = false)
    (hbM : envM.messageButtonFound = false) (hbR : envR.messageButtonFound = false) :
    ((sendMessageToProfileM envM p message email password).1
        = { success := false, profileId := p.id, url := p.url,
            error := some "Profile unavailable or no messaging option found",
            messageButtonPresent := "No", messageSent := "No", messagePreview := none }
      ∧ (sendMessageToProfileM envM p message email password).2.buttonQueries = 1)
    ∧ ((sendMessageToProfileR envR q message email password).1
        = { success := false, profileId := q.id, url := q.url,
            error := some "Profile unavailable or no messaging option found",
            messageButtonPresent := "No", messageSent := "No", messagePreview := none }
      ∧ (sendMessageToProfileR envR q message email password).2.buttonQueries = 1) := by
  constructor
  · simp only [sendMessageToProfileM, loginPhaseM, messagingPhaseM]
    rw [hnavM]
    simp [hlM, hbM, failOutcome]
  · simp only [sendMessageToProfileR, loginPhaseR, messagingPhaseR]
    rw [hnavR]
    simp [hlR, hbR, failOutcome]

/-- Witness for C4: concrete pages without a message button yield exactly
the claimed failure record after a single button query. -/
theorem missing_button_outcome_witness :
    ((sendMessageToProfileM envNoButtonM profileP1 "hi" "user@example.com" "pw").1
        = { success := false, profileId := profileP1.id, url := profileP1.url,
            error := some "Profile unavailable or no messaging option found",
            messageButtonPresent := "No", messageSent := "No", messagePreview := none }
      ∧ (sendMessageToProfileM envNoButtonM profileP1 "hi" "user@example.com" "pw").2.buttonQueries = 1)
    ∧ ((sendMessageToProfileR envNoButtonR profileP1 "hi" "user@example.com" "pw").1
        = { success := false, profileId := profileP1.id, url := profileP1.url,
            error := some "Profile unavailable or no messaging option found",
            messageButtonPresent := "No", messageSent := "No", messagePreview := none }
      ∧ (sendMessageToProfileR envNoButtonR profileP1 "hi" "user@example.com" "pw").2.buttonQueries = 1) :=
  missing_button_outcome envNoButtonM envNoButtonR profileP1 profileP1
    "hi" "user@example.com" "pw" rfl rfl rfl rfl rfl rfl

/-- C5 (code bug in `messenger.js`): `performFacebookLogin` invokes
`solveCaptcha(page)` without the `headless` argument
(`loginCaptchaHeadlessArg = none`), so even in a headless run whose
automated strategy fails the chain performs the full 90-poll manual-solve
window instead of returning false immediately.  When the argument is
actually supplied as `true` — and in `messengerrrr.js`, which reads
`process.env.HEADLESS` directly — the chain returns false with zero
polls, matching the claim. -/
theorem headless_manual_wait_entered :
    solveCaptchaM loginCaptchaHeadlessArg captchaEnvStuckM = ⟨false, 90⟩
    ∧ solveCaptchaM (some true) captchaEnvStuckM = ⟨false, 0⟩
    ∧ solveCaptchaR true captchaEnvStuckR = ⟨false, 0⟩ :=
  ⟨rfl, rfl, rfl⟩

/-- C6 (code bug in `messenger.js`): once the password field is located,
`humanType` is called with the selector string instead of the element
handle, raising `TypeError: elementHandle.click is not a function` — the
secret is never typed and the submit affordance is never reached.  The
`messengerrrr.js` variant gives the secret field the same treatment as the
identity field and then clicks the submit affordance. -/
theorem password_typed_with_selector_string :
    (performFacebookLoginM loginEnvHappyM "user@example.com" "secret").2
        = Except.error "elementHandle.click is not a function"
    ∧ (performFacebookLoginM loginEnvHappyM "user@example.com" "secret").1
        = [LoginAction.clickEmail, LoginAction.typeEmail "user@example.com",
            LoginAction.clickPassword]
    ∧ performFacebookLoginR loginEnvHappyR "user@example.com" "secret"
        = ([LoginAction.clickEmail, LoginAction.typeEmail "user@example.com",
            LoginAction.clickPassword, LoginAction.typePassword "secret",
            LoginAction.clickLoginButton], Except.ok true) :=
  ⟨rfl, rfl, rfl⟩

/-- C7 (code bug in `messenger.js`): with profiles and message absent and a
user-supplied email, `Actor.main` resolves the hard-coded account
`adedokunfemi14@gmail.com` / `Adedokun@1900`, the built-in default
profiles and the message `"Hello World"`, and proceeds without any
validation error — required fields are silently replaced and the supplied
email is never used.  The `runMessenger` and `main.js` validations on the
same input fail fast as the claim states. -/
theorem required_fields_silently_defaulted :
    resolveConfigM inputOnlyCreds
        = Except.ok ⟨"adedokunfemi14@gmail.com", "Adedokun@1900", defaultProfiles,
            "Hello World", false⟩
    ∧ runMessengerCheck inputOnlyCreds
        = Except.error "profiles (array) required in input"
    ∧ mainChecks inputOnlyCreds
        = Except.error "profiles (array) required in INPUT.json or Apify Console." :=
  ⟨rfl, rfl, rfl⟩

/-- C8: in both scripts, when the checkbox click resolves the challenge (no
secondary challenge frame appears), `solveRecaptchaAudio` returns true and
the audio-channel/transcription path is never entered. -/
theorem checkbox_short_circuit (m : AudioEnvM) (r : AudioEnvR)
    (hm1 : m.iframeAppears = true) (hm2 : m.challengeFrameAfter = false)
    (hr1 : r.iframeAppears = true) (hr2 : r.challengeFrameAfter = false) :
    solveRecaptchaAudioM m = true
    ∧ solveRecaptchaAudioR r = ⟨true, false, none⟩ := by
  constructor
  · simp [solveRecaptchaAudioM, hm1, hm2]
  · simp [solveRecaptchaAudioR, hr1, hr2]

/-- Witness for C8: concrete challenges resolved by the checkbox click. -/
theorem checkbox_short_circuit_witness :
    solveRecaptchaAudioM audioEnvCheckboxM = true
    ∧ solveRecaptchaAudioR audioEnvCheckboxR = ⟨true, false, none⟩ :=
  checkbox_short_circuit audioEnvCheckboxM audioEnvCheckboxR rfl rfl rfl rfl

/-- C9 counterexample: on an element with no bounding box, `humanClick`
performs no input action but also resolves normally — it does not report
any failure to its caller (the claim's "reports failure upward" is false). -/
theorem humanClick_no_box_counterexample :
    humanClick none (fun _ => 0) = ([], Except.ok ()) := rfl

/-- C9 amended: for every element that exposes no bounding box, the
humanized click performs no input action and returns normally, without
signalling the failure to its caller. -/
theorem humanClick_no_box_silent (draws : Nat → Nat) :
    humanClick none draws = ([], Except.ok ()) := rfl

/-- C10 counterexample: with no transcription backend configured, the mock
`processAudioChallenge` fabricates the digit word `"zero"` rather than
failing, and `solveRecaptchaAudio` injects it into the response field and
reports the strategy as successful. -/
theorem mock_transcription_counterexample :
    processAudioChallenge audioEnvFabricate = some "zero"
    ∧ solveRecaptchaAudioR audioEnvFabricate = ⟨true, true, some "zero"⟩ :=
  ⟨rfl, rfl⟩

/-- C10 amended: when the audio download succeeds, the mock transcription
always fabricates one of the ten digit words (never an absent result), and
on a page exposing the response field and verify button the audio strategy
injects the fabricated word and returns true; an absent result occurs only
when the download itself fails. -/
theorem mock_transcription_fabricates (env : AudioEnvR) (h : env.downloadOk = true) :
    (∃ w, w ∈ audioNumbers ∧ processAudioChallenge env = some w)
    ∧ (env.iframeAppears = true → env.challengeFrameAfter = true →
        env.downloadLinkAppears = true → env.audioInputFound = true →
        env.verifyButtonFound = true →
        (solveRecaptchaAudioR env).solved = true
          ∧ (solveRecaptchaAudioR env).injected = processAudioChallenge env) := by
  constructor
  · refine ⟨audioNumbers.getD (env.mockDraw % 10) "zero", ?_,
      by simp [processAudioChallenge, h]⟩
    have h10 : env.mockDraw % 10 < 10 := Nat.mod_lt _ (by omega)
    interval_cases h' : env.mockDraw % 10 <;> decide
  · intro h1 h2 h3 h4 h5
    simp [solveRecaptchaAudioR, h1, h2, h3, h4, h5, processAudioChallenge, h]

/-- Witness for C10's amended statement at the concrete full-path oracle. -/
theorem mock_transcription_fabricates_witness :
    (∃ w, w ∈ audioNumbers ∧ processAudioChallenge audioEnvFabricate = some w)
    ∧ ((solveRecaptchaAudioR audioEnvFabricate).solved = true
        ∧ (solveRecaptchaAudioR audioEnvFabricate).injected
            = processAudioChallenge audioEnvFabricate) := by
  have h := mock_transcription_fabricates audioEnvFabricate rfl
  exact ⟨h.1, h.2 rfl rfl rfl rfl rfl⟩

end FB
